import Mathlib

/-!
Verification of the sign-language translator, caption auto-save and
authentication logic of the inclusivelearn repository, shallowly embedded
in Lean 4.

Conventions of the embedding:
* Hand landmarks carry rational coordinates.  The source computes
  "Math.sqrt" of a sum of squares and compares the result with the
  thresholds 0.1 and 0.2; since the square root is monotone and both
  sides are nonnegative, "dist < 0.1" holds exactly when the squared
  distance is below 0.01 = 1/100, and "dist > 0.2" exactly when the
  squared distance is above 0.04 = 1/25.  The embedded classifier
  therefore compares squared distances with squared thresholds; theorem
  statements that speak about the Euclidean distance itself use
  "Real.sqrt" of the squared distance.
* JavaScript array indexing "landmarks[i]" is embedded as "List.getD"
  with a default point; the classifier is only applied to full 21-point
  MediaPipe frames, and the frame-emptiness guard of the source is kept.
* Record lookups such as "gestureToText[g]" (which yield "undefined" for
  a missing key) are embedded as functions into "Option String".
-/

/-- One MediaPipe hand landmark: the source only ever reads the "x" and
"y" fields of a landmark. -/
structure Landmark where
  x : ℚ
  y : ℚ
deriving DecidableEq

/-- Default value used to embed JavaScript array indexing. -/
def defaultLandmark : Landmark := ⟨0, 0⟩

/-- Squared planar Euclidean distance between two landmarks.  The source
computes "Math.sqrt" of exactly this quantity. -/
def distSq (p q : Landmark) : ℚ :=
  (p.x - q.x) ^ 2 + (p.y - q.y) ^ 2

/-- Squared distance between the thumb tip (index 4) and the index-finger
tip (index 8); the source variable "thumbIndexDist" is the square root of
this. -/
def thumbIndexDistSq (landmarks : List Landmark) : ℚ :=
  distSq (landmarks.getD 4 defaultLandmark) (landmarks.getD 8 defaultLandmark)

/-- Squared distance between the thumb tip (index 4) and the middle-finger
tip (index 12); the source variable "thumbMiddleDist" is the square root
of this. -/
def thumbMiddleDistSq (landmarks : List Landmark) : ℚ :=
  distSq (landmarks.getD 4 defaultLandmark) (landmarks.getD 12 defaultLandmark)

/-- The gesture classifier "detectGesture" of SignLanguageTranslator.tsx.
Returns "none" for a missing or empty landmark list, otherwise thresholds
the two computed distances.  Note that the source also extracts
"ringTip" (index 16), "pinkyTip" (index 20) and "wrist" (index 0) but
never uses them: only the thumb-index and thumb-middle distances are
computed and thresholded.  The comparisons "dist < 0.1" and "dist > 0.2"
of the source are embedded as the equivalent squared comparisons with
1/100 and 1/25. -/
def detectGesture (landmarks : List Landmark) : Option String :=
  if landmarks.length = 0 then none
  else if thumbIndexDistSq landmarks < 1/100 ∧ thumbMiddleDistSq landmarks < 1/100 then
    some "A"  -- Fist
  else if 1/25 < thumbIndexDistSq landmarks ∧ thumbMiddleDistSq landmarks < 1/100 then
    some "B"  -- Point
  else if thumbIndexDistSq landmarks < 1/100 ∧ 1/25 < thumbMiddleDistSq landmarks then
    some "C"  -- Peace
  else if 1/25 < thumbIndexDistSq landmarks ∧ 1/25 < thumbMiddleDistSq landmarks then
    some "D"  -- Open hand
  else none

/-- The static record "gestureToText" of "getTranslationFromGestures":
single gesture codes to phrases; a missing key yields "none"
(JavaScript "undefined"). -/
def gestureToText : String → Option String
  | "A" => some "Hello"
  | "B" => some "Thank you"
  | "C" => some "Please"
  | "D" => some "Goodbye"
  | "E" => some "Yes"
  | "F" => some "No"
  | "G" => some "Help"
  | "H" => some "Water"
  | "I" => some "Food"
  | "J" => some "Bathroom"
  | _ => none

/-- The static record "gestureSequences" of "getTranslationFromGestures":
two-code sequences to phrases. -/
def gestureSequences : String → Option String
  | "AB" => some "Hello, thank you"
  | "AC" => some "Hello, please"
  | "AD" => some "Hello, goodbye"
  | "AE" => some "Hello, yes"
  | "AF" => some "Hello, no"
  | _ => none

/-- The translation "getTranslationFromGestures" of
SignLanguageTranslator.tsx.  "gestures.slice(-2).join(&quot;&quot;)" is the
concatenation of the last two codes (the whole list when it has fewer
than two elements); the sequence table is consulted first, then the
single-gesture table on the last code, with fallback "Unknown gesture"
(which is also taken when the list is empty, since then the last code is
"undefined" and the record lookup yields "undefined"). -/
def getTranslationFromGestures (gestures : List String) : String :=
  let sequence := String.join (gestures.drop (gestures.length - 2))
  match gestureSequences sequence with
  | some t => t
  | none =>
    match gestures.getLast? with
    | some lastGesture => (gestureToText lastGesture).getD "Unknown gesture"
    | none => "Unknown gesture"

/-- The if/else threshold table on the two squared distances, stated by
itself; used to express that the classifier is exactly a static threshold
table over the two computed distances. -/
def thresholdTable (tiSq tmSq : ℚ) : Option String :=
  if tiSq < 1/100 ∧ tmSq < 1/100 then some "A"
  else if 1/25 < tiSq ∧ tmSq < 1/100 then some "B"
  else if tiSq < 1/100 ∧ 1/25 < tmSq then some "C"
  else if 1/25 < tiSq ∧ 1/25 < tmSq then some "D"
  else none

/-!
Authentication model.  Roles are the strings "student" and "teacher"
(the TypeScript union UserRole and the TEXT column of user_profiles).
-/

/-- A row of the auth.users table (the fields read by the trigger). -/
structure AuthUser where
  id : String
  email : String
deriving DecidableEq

/-- A row of the user_profiles table (id, email, role; timestamps are
omitted as no embedded operation reads them). -/
structure ProfileRow where
  id : String
  email : String
  role : String
deriving DecidableEq

/-- The two relevant database tables. -/
structure Database where
  authUsers : List AuthUser
  userProfiles : List ProfileRow
deriving DecidableEq

/-- The SQL function "handle_new_user" of the Supabase setup scripts:
"INSERT INTO user_profiles (id, email, role) VALUES (NEW.id, NEW.email,
&#39;student&#39;)" — the role is the literal "student", independent of any
client-side data. -/
def handle_new_user (newUser : AuthUser) (profiles : List ProfileRow) :
    List ProfileRow :=
  profiles ++ [⟨newUser.id, newUser.email, "student"⟩]

/-- Inserting a row into auth.users runs the "on_auth_user_created"
trigger ("AFTER INSERT ON auth.users FOR EACH ROW EXECUTE FUNCTION
handle_new_user()"). -/
def insertAuthUser (db : Database) (u : AuthUser) : Database :=
  { authUsers := db.authUsers ++ [u]
    userProfiles := handle_new_user u db.userProfiles }

/-- The client-side auth state of AuthContext.tsx: the React state
variables "session", "user", "userRole" and "isLoading".  A session is
represented by its access token, a user by their id. -/
structure ClientAuthState where
  session : Option String
  user : Option String
  userRole : Option String
  isLoading : Bool
deriving DecidableEq

/-- The function "signUpWithEmail" of AuthContext.tsx, success path
(supabase.auth.signUp succeeded and returned a user): the backend creates
the auth user, which fires the profile trigger; the client then only sets
the "userRole" React state to the role argument and explicitly skips any
client-side profile creation ("Skipping profile creation due to database
issues").  The role argument is never sent to the backend.  The "finally"
block schedules "setIsLoading(false)"; the state after that timeout is
modelled.  The password is only forwarded to the external identity
provider. -/
def signUpWithEmail (db : Database) (st : ClientAuthState)
    (email _password role : String) (newId : String) :
    Database × ClientAuthState :=
  let db2 := insertAuthUser db ⟨newId, email⟩
  (db2, { st with userRole := some role, isLoading := false })

/-- Outcome of the user_profiles role query issued by "fetchUserRole"
(a .select of "role" with .eq on id and .single): either a row whose
"role" field may itself be absent, a database error with a code, or a
thrown exception. -/
inductive QueryResult where
  | ok (role : Option String)
  | err (code : String)
  | exn
deriving DecidableEq

/-- The function "fetchUserRole" of
src/context/AuthContext.tsx, as a function of the outcome of its
database query.  Every error branch returns "student": code "42P01"
(table does not exist), code "PGRST116" (no rows returned), any other
error code, and the catch-all exception handler.  On success the source
returns "data?.role || &#39;student&#39;", so an absent or empty-string
role also falls back to "student" (JavaScript truthiness). -/
def fetchUserRole (r : QueryResult) : Option String :=
  match r with
  | .err code =>
    if code = "42P01" then some "student"
    else if code = "PGRST116" then some "student"
    else some "student"
  | .exn => some "student"
  | .ok role =>
    match role with
    | some s => if s = "" then some "student" else some s
    | none => some "student"

/-- The variant of "fetchUserRole" found in the unnamed duplicate of the
auth context (src/unnamed/part_001).  It differs in the error branch:
after handling "42P01" and "PGRST116" (the latter also schedules an
asynchronous profile insertion, which does not affect the returned
role), the remaining error codes reach "return null". -/
def fetchUserRolePart001 (r : QueryResult) : Option String :=
  match r with
  | .err code =>
    if code = "42P01" then some "student"
    else if code = "PGRST116" then some "student"
    else none
  | .exn => some "student"
  | .ok role =>
    match role with
    | some s => if s = "" then some "student" else some s
    | none => some "student"

/-- A query outcome is failing when the query reported an error or the
surrounding code threw: the cases "table does not exist" (42P01), "no
matching row" (PGRST116), any other database error, or an exception. -/
def FailingOutcome (r : QueryResult) : Prop :=
  (∃ code, r = QueryResult.err code) ∨ r = QueryResult.exn

/-- The function "signOut" of AuthContext.tsx: it first clears the three
state variables ("setSession(null); setUser(null); setUserRole(null)"),
then calls the backend sign-out.  On a backend error it throws (after a
toast) — but the state has already been cleared and the catch block does
not restore it; on success it navigates away.  Either way the "finally"
block schedules "setIsLoading(false)".  The returned Bool records
whether the call threw. -/
def signOut (st : ClientAuthState) (backendError : Bool) :
    ClientAuthState × Bool :=
  let cleared : ClientAuthState :=
    { st with session := none, user := none, userRole := none }
  if backendError then ({ cleared with isLoading := false }, true)
  else ({ cleared with isLoading := false }, false)

/-!
Sign-language translator component state and "clearTranslation".
-/

/-- An entry of the "translationHistory" React state of
SignLanguageTranslator.tsx: text, timestamp and confidence. -/
structure HistoryEntry where
  text : String
  timestamp : ℕ
  confidence : ℚ
deriving DecidableEq

/-- The React state variables of SignLanguageTranslator.tsx touched or
deliberately left alone by "clearTranslation". -/
structure TranslatorState where
  translatedText : String
  detectedGestures : List String
  currentGesture : Option String
  lastGesture : Option String
  translationHistory : List HistoryEntry
deriving DecidableEq

/-- The function "clearTranslation" of SignLanguageTranslator.tsx:
resets the translated text, the detected gesture list and the current
and last gesture; the source comment reads "Don&#39;t clear translation
history" and indeed "translationHistory" is not written. -/
def clearTranslation (st : TranslatorState) : TranslatorState :=
  { st with
    translatedText := ""
    detectedGestures := []
    currentGesture := none
    lastGesture := none }

/-!
Video captioning page: caption formatting and the auto-save logic.
-/

/-- A caption entry of VideoCaptioning.tsx; times are in seconds. -/
structure CaptionEntry where
  text : String
  startTime : ℚ
  endTime : ℚ
  isEdited : Bool
deriving DecidableEq

/-- String.padStart(2, zero) as used on the seconds field: numbers are
rendered with at least two digits.  The rendered number string is never
empty, so at most one zero is prepended. -/
def padStartTwoZero (s : String) : String :=
  if s.length < 2 then "0" ++ s else s

/-- JavaScript remainder "a % b" for the nonnegative operands appearing
here (truncated division coincides with floor division). -/
def jsMod (a b : ℚ) : ℚ :=
  a - b * (⌊a / b⌋ : ℚ)

/-- The function "formatTime" of VideoCaptioning.tsx:
"Math.floor(seconds / 60)" minutes, a colon, and the two-digit padded
"Math.floor(seconds % 60)". -/
def formatTime (seconds : ℚ) : String :=
  let minutes : ℤ := ⌊seconds / 60⌋
  let remainingSeconds : ℤ := ⌊jsMod seconds 60⌋
  toString minutes ++ ":" ++ padStartTwoZero (toString remainingSeconds)

/-- The "notesText" built by "autoSaveCaptions": each caption rendered as
"[start - end] text", joined with blank lines. -/
def formatCaptions (captions : List CaptionEntry) : String :=
  String.intercalate "\n\n"
    (captions.map (fun caption =>
      "[" ++ formatTime caption.startTime ++ " - " ++ formatTime caption.endTime
        ++ "] " ++ caption.text))

/-- The state of the VideoCaptioning page relevant to auto-save: the
captions, the "videoCaptions" local-storage slot, the "autoSaveStatus"
React state and whether the status-clearing timeout is pending. -/
structure CaptionPageState where
  generatedCaptions : List CaptionEntry
  storedCaptions : Option String
  autoSaveStatus : String
  statusTimerActive : Bool
deriving DecidableEq

/-- The function "autoSaveCaptions" of VideoCaptioning.tsx, run
synchronously by the effect on every change of "generatedCaptions": when
there is at least one caption it immediately writes the formatted string
to local storage ("localStorage.setItem(&#39;videoCaptions&#39;,
notesText)"), sets the status to "Auto-saved", and (re)arms a 2-second
timeout whose only job is to clear the status again. -/
def autoSaveCaptions (st : CaptionPageState) : CaptionPageState :=
  if st.generatedCaptions.length = 0 then st
  else
    { st with
      storedCaptions := some (formatCaptions st.generatedCaptions)
      autoSaveStatus := "Auto-saved"
      statusTimerActive := true }

/-- The effect "useEffect(() =&gt; \x7b autoSaveCaptions(); \x7d,
[generatedCaptions])": a change of the captions runs "autoSaveCaptions"
synchronously, with no debounce delay before the storage write. -/
def onCaptionsChange (st : CaptionPageState) (newCaptions : List CaptionEntry) :
    CaptionPageState :=
  autoSaveCaptions { st with generatedCaptions := newCaptions }

/-- Firing of the 2-second timeout armed by "autoSaveCaptions": it runs
"setAutoSaveStatus(&#39;&#39;)" and nothing else — in particular it does
not touch local storage. -/
def statusTimerFire (st : CaptionPageState) : CaptionPageState :=
  { st with autoSaveStatus := "", statusTimerActive := false }


/-!
Concrete inputs used in sanity checks, witnesses and counterexamples.
MediaPipe hand frames have 21 landmarks; index 0 is the wrist, 4 the
thumb tip, 8 the index-finger tip, 12 the middle-finger tip, 16 the
ring-finger tip and 20 the pinky tip.
-/

/-- A fist-like 21-landmark frame: thumb, index and middle tips within
distance 0.05 of each other, and ring tip, pinky tip and wrist all within
distance 0.1 of the thumb tip. -/
def frameA1 : List Landmark :=
  [⟨1/100, 1/100⟩, ⟨0, 0⟩, ⟨0, 0⟩, ⟨0, 0⟩,
   ⟨0, 0⟩, ⟨0, 0⟩, ⟨0, 0⟩, ⟨0, 0⟩,
   ⟨1/20, 0⟩, ⟨0, 0⟩, ⟨0, 0⟩, ⟨0, 0⟩,
   ⟨0, 1/20⟩, ⟨0, 0⟩, ⟨0, 0⟩, ⟨0, 0⟩,
   ⟨1/100, 0⟩, ⟨0, 0⟩, ⟨0, 0⟩, ⟨0, 0⟩,
   ⟨0, 1/100⟩]

/-- The same frame as frameA1 except that ring tip, pinky tip and wrist
are moved to distance above 0.2 from the thumb tip; thumb, index and
middle tips are unchanged. -/
def frameA2 : List Landmark :=
  [⟨1/2, 1/2⟩, ⟨0, 0⟩, ⟨0, 0⟩, ⟨0, 0⟩,
   ⟨0, 0⟩, ⟨0, 0⟩, ⟨0, 0⟩, ⟨0, 0⟩,
   ⟨1/20, 0⟩, ⟨0, 0⟩, ⟨0, 0⟩, ⟨0, 0⟩,
   ⟨0, 1/20⟩, ⟨0, 0⟩, ⟨0, 0⟩, ⟨0, 0⟩,
   ⟨1/2, 0⟩, ⟨0, 0⟩, ⟨0, 0⟩, ⟨0, 0⟩,
   ⟨0, 1/2⟩]

/-- A 21-landmark frame whose thumb-index distance is 0.15, inside the
gap between the 0.1 and 0.2 thresholds. -/
def gapFrame : List Landmark :=
  [⟨0, 0⟩, ⟨0, 0⟩, ⟨0, 0⟩, ⟨0, 0⟩,
   ⟨0, 0⟩, ⟨0, 0⟩, ⟨0, 0⟩, ⟨0, 0⟩,
   ⟨3/20, 0⟩, ⟨0, 0⟩, ⟨0, 0⟩, ⟨0, 0⟩,
   ⟨0, 1/20⟩, ⟨0, 0⟩, ⟨0, 0⟩, ⟨0, 0⟩,
   ⟨0, 0⟩, ⟨0, 0⟩, ⟨0, 0⟩, ⟨0, 0⟩,
   ⟨0, 0⟩]

/-- A sample caption. -/
def sampleCaption : CaptionEntry := ⟨"hello world", 0, 5, false⟩

/-- The caption page before any caption exists: nothing stored yet. -/
def initialCaptionPage : CaptionPageState := ⟨[], none, "", false⟩
-- Bridging lemmas between the Euclidean distance (a real square root of a
-- rational squared distance) and the squared comparisons of the embedding.

lemma distSq_nonneg (p q : Landmark) : 0 ≤ distSq p q := by
  unfold distSq; positivity

lemma thumbIndexDistSq_nonneg (l : List Landmark) : 0 ≤ thumbIndexDistSq l :=
  distSq_nonneg _ _

lemma thumbMiddleDistSq_nonneg (l : List Landmark) : 0 ≤ thumbMiddleDistSq l :=
  distSq_nonneg _ _

lemma rat_lt_of_sqrt_lt {q : ℚ} {t : ℝ} (hq : 0 ≤ q)
    (h : Real.sqrt (q : ℝ) < t) : (q : ℝ) < t ^ 2 := by
  have hs : Real.sqrt (q : ℝ) ^ 2 = (q : ℝ) := Real.sq_sqrt (by exact_mod_cast hq)
  nlinarith [Real.sqrt_nonneg ((q : ℚ) : ℝ)]

lemma rat_le_of_sqrt_le {q : ℚ} {t : ℝ} (hq : 0 ≤ q)
    (h : Real.sqrt (q : ℝ) ≤ t) : (q : ℝ) ≤ t ^ 2 := by
  have hs : Real.sqrt (q : ℝ) ^ 2 = (q : ℝ) := Real.sq_sqrt (by exact_mod_cast hq)
  nlinarith [Real.sqrt_nonneg ((q : ℚ) : ℝ)]

lemma rat_ge_of_sqrt_ge {q : ℚ} {t : ℝ} (hq : 0 ≤ q) (ht : 0 ≤ t)
    (h : t ≤ Real.sqrt (q : ℝ)) : t ^ 2 ≤ (q : ℝ) := by
  have hs : Real.sqrt (q : ℝ) ^ 2 = (q : ℝ) := Real.sq_sqrt (by exact_mod_cast hq)
  nlinarith

lemma detectGesture_eq_thresholdTable (l : List Landmark) (h : l ≠ []) :
    detectGesture l = thresholdTable (thumbIndexDistSq l) (thumbMiddleDistSq l) := by
  have hlen : ¬ l.length = 0 := by simpa using h
  unfold detectGesture thresholdTable
  rw [if_neg hlen]

-- Sanity checks of the embedding on concrete inputs.
example : getTranslationFromGestures ["A", "B"] = "Hello, thank you" := by decide
example : getTranslationFromGestures ["B"] = "Thank you" := by decide
example : getTranslationFromGestures ["X"] = "Unknown gesture" := by decide

-- Sanity checks.
example : formatTime 0 = "0:00" := by
  unfold formatTime jsMod; norm_num; decide
example : formatTime 65 = "1:05" := by
  unfold formatTime jsMod; norm_num; decide
example : fetchUserRole (QueryResult.err "XX000") = some "student" := by decide
example : fetchUserRolePart001 (QueryResult.err "XX000") = none := by decide

lemma sqrt_q_eq (q t : ℚ) (ht : 0 ≤ t) (h : q = t ^ 2) :
    Real.sqrt (q : ℝ) = (t : ℝ) := by
  subst h; push_cast; exact Real.sqrt_sq (by exact_mod_cast ht)

/-- C2: for every nonempty hand-landmark frame in which both the
thumb-tip-to-index-tip and the thumb-tip-to-middle-tip Euclidean
distances are strictly below 0.1, the gesture classifier detectGesture
returns "A". -/
theorem detectGesture_returns_A (l : List Landmark) (h : l ≠ [])
    (h1 : Real.sqrt (thumbIndexDistSq l : ℝ) < 0.1)
    (h2 : Real.sqrt (thumbMiddleDistSq l : ℝ) < 0.1) :
    detectGesture l = some "A" := by
  have q1 : thumbIndexDistSq l < 1/100 := by
    have hr := rat_lt_of_sqrt_lt (thumbIndexDistSq_nonneg l) h1
    have hc : ((thumbIndexDistSq l : ℚ) : ℝ) < ((1/100 : ℚ) : ℝ) := by
      calc ((thumbIndexDistSq l : ℚ) : ℝ) < (0.1 : ℝ) ^ 2 := hr
        _ = ((1/100 : ℚ) : ℝ) := by norm_num
    exact_mod_cast hc
  have q2 : thumbMiddleDistSq l < 1/100 := by
    have hr := rat_lt_of_sqrt_lt (thumbMiddleDistSq_nonneg l) h2
    have hc : ((thumbMiddleDistSq l : ℚ) : ℝ) < ((1/100 : ℚ) : ℝ) := by
      calc ((thumbMiddleDistSq l : ℚ) : ℝ) < (0.1 : ℝ) ^ 2 := hr
        _ = ((1/100 : ℚ) : ℝ) := by norm_num
    exact_mod_cast hc
  have hlen : ¬ l.length = 0 := by simpa using h
  unfold detectGesture
  rw [if_neg hlen, if_pos ⟨q1, q2⟩]

/-- C2 witness: the fist frame frameA1 has both relevant distances equal
to 0.05 < 0.1 and is classified "A". -/
theorem detectGesture_returns_A_witness : detectGesture frameA1 = some "A" := by
  have e1 : Real.sqrt (thumbIndexDistSq frameA1 : ℝ) = ((1/20 : ℚ) : ℝ) :=
    sqrt_q_eq _ (1/20) (by norm_num)
      (by norm_num [thumbIndexDistSq, distSq, frameA1, defaultLandmark])
  have e2 : Real.sqrt (thumbMiddleDistSq frameA1 : ℝ) = ((1/20 : ℚ) : ℝ) :=
    sqrt_q_eq _ (1/20) (by norm_num)
      (by norm_num [thumbMiddleDistSq, distSq, frameA1, defaultLandmark])
  exact detectGesture_returns_A frameA1 (by simp [frameA1])
    (by rw [e1]; norm_num) (by rw [e2]; norm_num)

/-- C3: applied to the empty detected-gesture sequence,
getTranslationFromGestures returns the string "Unknown gesture". -/
theorem getTranslation_empty_unknown :
    getTranslationFromGestures [] = "Unknown gesture" := by decide

/-- C4: the sequence lookup takes precedence: for every gesture list of
length at least two whose last two codes joined form a key of the
sequence table, getTranslationFromGestures returns the phrase of the
sequence table (and not the single-gesture translation of the last
code). -/
theorem getTranslation_sequence_precedence (gs : List String) (p : String)
    (hlen : 2 ≤ gs.length)
    (hseq : gestureSequences (String.join (gs.drop (gs.length - 2))) = some p) :
    getTranslationFromGestures gs = p := by
  unfold getTranslationFromGestures
  simp only [hseq]

/-- C4 witness: for the list ["A", "B"] the sequence phrase
"Hello, thank you" is returned, not the single-gesture "Thank you". -/
theorem getTranslation_sequence_precedence_witness :
    getTranslationFromGestures ["A", "B"] = "Hello, thank you" ∧
    gestureToText "B" = some "Thank you" :=
  ⟨getTranslation_sequence_precedence ["A", "B"] "Hello, thank you"
    (by decide) (by decide), by decide⟩

/-- C9: detectGesture only ever produces the codes "A", "B", "C", "D" or
none (so the codes "E" through "J" of the translation table are
unreachable from live classification); it returns none on the empty
landmark list; and it returns none whenever either measured Euclidean
distance lies in the gap between the 0.1 and 0.2 thresholds. -/
theorem detectGesture_range :
    (∀ (l : List Landmark) (g : String), detectGesture l = some g →
      g = "A" ∨ g = "B" ∨ g = "C" ∨ g = "D") ∧
    detectGesture [] = none ∧
    (∀ l : List Landmark, l ≠ [] →
      ((0.1 ≤ Real.sqrt (thumbIndexDistSq l : ℝ) ∧
        Real.sqrt (thumbIndexDistSq l : ℝ) ≤ 0.2) ∨
       (0.1 ≤ Real.sqrt (thumbMiddleDistSq l : ℝ) ∧
        Real.sqrt (thumbMiddleDistSq l : ℝ) ≤ 0.2)) →
      detectGesture l = none) := by
  refine ⟨?_, rfl, ?_⟩
  · intro l g h
    unfold detectGesture at h
    repeat' split at h
    all_goals simp_all
  · intro l hneq hgap
    have hlen : ¬ l.length = 0 := by simpa using hneq
    rcases hgap with ⟨hlo, hhi⟩ | ⟨hlo, hhi⟩
    · have qlo : (1/100 : ℚ) ≤ thumbIndexDistSq l := by
        have hr := rat_ge_of_sqrt_ge (thumbIndexDistSq_nonneg l) (by norm_num) hlo
        have hc : ((1/100 : ℚ) : ℝ) ≤ ((thumbIndexDistSq l : ℚ) : ℝ) := by
          calc ((1/100 : ℚ) : ℝ) = (0.1 : ℝ) ^ 2 := by norm_num
            _ ≤ ((thumbIndexDistSq l : ℚ) : ℝ) := hr
        exact_mod_cast hc
      have qhi : thumbIndexDistSq l ≤ (1/25 : ℚ) := by
        have hr := rat_le_of_sqrt_le (thumbIndexDistSq_nonneg l) hhi
        have hc : ((thumbIndexDistSq l : ℚ) : ℝ) ≤ ((1/25 : ℚ) : ℝ) := by
          calc ((thumbIndexDistSq l : ℚ) : ℝ) ≤ (0.2 : ℝ) ^ 2 := hr
            _ = ((1/25 : ℚ) : ℝ) := by norm_num
        exact_mod_cast hc
      unfold detectGesture
      rw [if_neg hlen,
          if_neg (fun hc => absurd hc.1 (not_lt.mpr qlo)),
          if_neg (fun hc => absurd hc.1 (not_lt.mpr qhi)),
          if_neg (fun hc => absurd hc.1 (not_lt.mpr qlo)),
          if_neg (fun hc => absurd hc.1 (not_lt.mpr qhi))]
    · have qlo : (1/100 : ℚ) ≤ thumbMiddleDistSq l := by
        have hr := rat_ge_of_sqrt_ge (thumbMiddleDistSq_nonneg l) (by norm_num) hlo
        have hc : ((1/100 : ℚ) : ℝ) ≤ ((thumbMiddleDistSq l : ℚ) : ℝ) := by
          calc ((1/100 : ℚ) : ℝ) = (0.1 : ℝ) ^ 2 := by norm_num
            _ ≤ ((thumbMiddleDistSq l : ℚ) : ℝ) := hr
        exact_mod_cast hc
      have qhi : thumbMiddleDistSq l ≤ (1/25 : ℚ) := by
        have hr := rat_le_of_sqrt_le (thumbMiddleDistSq_nonneg l) hhi
        have hc : ((thumbMiddleDistSq l : ℚ) : ℝ) ≤ ((1/25 : ℚ) : ℝ) := by
          calc ((thumbMiddleDistSq l : ℚ) : ℝ) ≤ (0.2 : ℝ) ^ 2 := hr
            _ = ((1/25 : ℚ) : ℝ) := by norm_num
        exact_mod_cast hc
      unfold detectGesture
      rw [if_neg hlen,
          if_neg (fun hc => absurd hc.2 (not_lt.mpr qlo)),
          if_neg (fun hc => absurd hc.2 (not_lt.mpr qlo)),
          if_neg (fun hc => absurd hc.2 (not_lt.mpr qhi)),
          if_neg (fun hc => absurd hc.2 (not_lt.mpr qhi))]

/-- C9 witness: gapFrame has thumb-index distance 0.15, inside the gap,
and is classified none. -/
theorem detectGesture_range_witness : detectGesture gapFrame = none := by
  have e : Real.sqrt (thumbIndexDistSq gapFrame : ℝ) = ((3/20 : ℚ) : ℝ) :=
    sqrt_q_eq _ (3/20) (by norm_num)
      (by norm_num [thumbIndexDistSq, distSq, gapFrame, defaultLandmark])
  exact detectGesture_range.2.2 gapFrame (by simp [gapFrame])
    (Or.inl ⟨by rw [e]; norm_num, by rw [e]; norm_num⟩)

/-- C1 counterexample: the classification is not obtained by thresholding
five hand-landmark distances.  The source computes and thresholds only
the thumb-index and thumb-middle distances; the further extracted
landmarks (ring tip, pinky tip, wrist) enter no comparison.  Concretely:
frameA1 and frameA2 agree on thumb, index and middle tips, while the
Euclidean distances from the thumb tip to the ring tip, to the pinky tip
and to the wrist all move from strictly below the 0.1 threshold to
strictly above the 0.2 threshold — yet the classification is "A" for
both, so no threshold on any distance involving those landmarks
participates in the classification, and at most the two computed
distances do. -/
theorem detectGesture_not_five_distances_cex :
    detectGesture frameA1 = some "A" ∧
    detectGesture frameA2 = some "A" ∧
    Real.sqrt (distSq (frameA1.getD 4 defaultLandmark)
      (frameA1.getD 16 defaultLandmark) : ℝ) < 0.1 ∧
    0.2 < Real.sqrt (distSq (frameA2.getD 4 defaultLandmark)
      (frameA2.getD 16 defaultLandmark) : ℝ) ∧
    Real.sqrt (distSq (frameA1.getD 4 defaultLandmark)
      (frameA1.getD 20 defaultLandmark) : ℝ) < 0.1 ∧
    0.2 < Real.sqrt (distSq (frameA2.getD 4 defaultLandmark)
      (frameA2.getD 20 defaultLandmark) : ℝ) ∧
    Real.sqrt (distSq (frameA1.getD 4 defaultLandmark)
      (frameA1.getD 0 defaultLandmark) : ℝ) < 0.1 ∧
    0.2 < Real.sqrt (distSq (frameA2.getD 4 defaultLandmark)
      (frameA2.getD 0 defaultLandmark) : ℝ) := by
  refine ⟨?_, ?_, ?_, ?_, ?_, ?_, ?_, ?_⟩
  · norm_num [detectGesture, thumbIndexDistSq, thumbMiddleDistSq, distSq,
      frameA1, defaultLandmark]
  · norm_num [detectGesture, thumbIndexDistSq, thumbMiddleDistSq, distSq,
      frameA2, defaultLandmark]
  · refine (Real.sqrt_lt' (by norm_num)).mpr ?_
    norm_num [distSq, frameA1, defaultLandmark]
  · refine (Real.lt_sqrt (by norm_num)).mpr ?_
    norm_num [distSq, frameA2, defaultLandmark]
  · refine (Real.sqrt_lt' (by norm_num)).mpr ?_
    norm_num [distSq, frameA1, defaultLandmark]
  · refine (Real.lt_sqrt (by norm_num)).mpr ?_
    norm_num [distSq, frameA2, defaultLandmark]
  · refine (Real.sqrt_lt' (by norm_num)).mpr ?_
    norm_num [distSq, frameA1, defaultLandmark]
  · refine (Real.lt_sqrt (by norm_num)).mpr ?_
    norm_num [distSq, frameA2, defaultLandmark]

/-- C1 (amended): the gesture classifier is a static if/else threshold
table over the TWO hand-landmark Euclidean distances it computes
(thumb tip to index tip and thumb tip to middle tip): on every nonempty
frame it coincides with the standalone threshold table applied to those
two (squared) distances, and its classification is fully determined by
them — two nonempty frames with the same two distances classify
identically. -/
theorem detectGesture_two_distance_table :
    (∀ l : List Landmark, l ≠ [] →
      detectGesture l = thresholdTable (thumbIndexDistSq l) (thumbMiddleDistSq l)) ∧
    (∀ l₁ l₂ : List Landmark, l₁ ≠ [] → l₂ ≠ [] →
      thumbIndexDistSq l₁ = thumbIndexDistSq l₂ →
      thumbMiddleDistSq l₁ = thumbMiddleDistSq l₂ →
      detectGesture l₁ = detectGesture l₂) := by
  constructor
  · exact detectGesture_eq_thresholdTable
  · intro l₁ l₂ h₁ h₂ e₁ e₂
    rw [detectGesture_eq_thresholdTable l₁ h₁,
      detectGesture_eq_thresholdTable l₂ h₂, e₁, e₂]

/-- C1 witness: the two frames of the counterexample have equal computed
distances, so the determination part applies and gives the same
classification; the table part applies to frameA1. -/
theorem detectGesture_two_distance_table_witness :
    detectGesture frameA1 =
      thresholdTable (thumbIndexDistSq frameA1) (thumbMiddleDistSq frameA1) ∧
    detectGesture frameA1 = detectGesture frameA2 :=
  ⟨detectGesture_two_distance_table.1 frameA1 (by simp [frameA1]),
   detectGesture_two_distance_table.2 frameA1 frameA2
     (by simp [frameA1]) (by simp [frameA2])
     (by norm_num [thumbIndexDistSq, distSq, frameA1, frameA2, defaultLandmark])
     (by norm_num [thumbMiddleDistSq, distSq, frameA1, frameA2, defaultLandmark])⟩

/-- C5: on every successful signup, the server-side trigger on the
auth.users insert creates exactly one new user_profiles row for the new
user, and that row has role "student" — regardless of the role argument
given to signUpWithEmail (which only reaches the client-side React
state, never the database). -/
theorem signUp_creates_student_profile (db : Database) (st : ClientAuthState)
    (email password role newId : String) :
    ((signUpWithEmail db st email password role newId).1).userProfiles
        = db.userProfiles ++ [⟨newId, email, "student"⟩] ∧
    ((signUpWithEmail db st email password role newId).2).userRole = some role :=
  ⟨rfl, rfl⟩

/-- C6 counterexample: the fetchUserRole variant of the duplicated auth
context (src/unnamed/part_001) does not return "student" for a database
error with a code other than 42P01 and PGRST116 — it returns null. -/
theorem fetchUserRolePart001_other_error_cex :
    fetchUserRolePart001 (QueryResult.err "XX000") = none ∧
    fetchUserRolePart001 (QueryResult.err "XX000") ≠ some "student" := by
  exact ⟨rfl, by decide⟩

/-- C6 (amended): for every failing outcome of the role lookup (table
missing, no matching row, any other database error, or a thrown
exception) the fetchUserRole of src/context/AuthContext.tsx returns the
fallback "student" rather than propagating the error; the part_001
variant does so except for other database errors, where it returns null
(still without propagating). -/
theorem fetchUserRole_failing_defaults_student (r : QueryResult)
    (h : FailingOutcome r) :
    fetchUserRole r = some "student" ∧
    (fetchUserRolePart001 r = some "student" ∨ fetchUserRolePart001 r = none) := by
  rcases h with ⟨code, rfl⟩ | rfl
  · constructor
    · simp only [fetchUserRole]
      split_ifs <;> rfl
    · simp only [fetchUserRolePart001]
      split_ifs with h1 h2
      · exact Or.inl rfl
      · exact Or.inl rfl
      · exact Or.inr rfl
  · exact ⟨rfl, Or.inl rfl⟩

/-- C6 witness: an unrecognised database error code yields "student" in
the AuthContext.tsx version. -/
theorem fetchUserRole_failing_defaults_student_witness :
    fetchUserRole (QueryResult.err "XX000") = some "student" :=
  (fetchUserRole_failing_defaults_student (QueryResult.err "XX000")
    (Or.inl ⟨"XX000", rfl⟩)).1

/-- C7: sign-out clears session state: after every call to signOut —
whether the backend sign-out reported an error or not — the session,
user and userRole state are all null. -/
theorem signOut_clears_state (st : ClientAuthState) (backendError : Bool) :
    (signOut st backendError).1.session = none ∧
    (signOut st backendError).1.user = none ∧
    (signOut st backendError).1.userRole = none := by
  cases backendError <;> exact ⟨rfl, rfl, rfl⟩

/-- C8 counterexample: the caption auto-save is not debounced by a
timer.  Starting from a page with nothing stored, a single change of the
generated captions writes the formatted string to local storage
synchronously, before any timer can elapse; the only timer involved
merely clears the "Auto-saved" status. -/
theorem autoSave_writes_synchronously_cex :
    initialCaptionPage.storedCaptions = none ∧
    (onCaptionsChange initialCaptionPage [sampleCaption]).storedCaptions
      = some (formatCaptions [sampleCaption]) ∧
    (onCaptionsChange initialCaptionPage [sampleCaption]).storedCaptions ≠ none ∧
    (onCaptionsChange initialCaptionPage [sampleCaption]).statusTimerActive = true := by
  refine ⟨rfl, ?_, ?_, ?_⟩ <;>
    simp [onCaptionsChange, autoSaveCaptions, initialCaptionPage]

/-- C8 (amended): the caption auto-save is synchronous, not
timer-debounced: on every change to a nonempty caption list the
formatted captions string is immediately written to local storage (and
the empty list is skipped), while the 2-second timer armed by the save
only clears the "Auto-saved" status and never writes to storage. -/
theorem autoSave_synchronous_write (st : CaptionPageState)
    (cs : List CaptionEntry) (h : cs ≠ []) :
    (onCaptionsChange st cs).storedCaptions = some (formatCaptions cs) ∧
    (∀ s : CaptionPageState, (statusTimerFire s).storedCaptions = s.storedCaptions) ∧
    (∀ s : CaptionPageState, (onCaptionsChange s []).storedCaptions = s.storedCaptions) := by
  refine ⟨?_, fun s => rfl, fun s => rfl⟩
  simp [onCaptionsChange, autoSaveCaptions, h]

/-- C8 witness: a one-caption change writes immediately. -/
theorem autoSave_synchronous_write_witness :
    (onCaptionsChange initialCaptionPage [sampleCaption]).storedCaptions
      = some (formatCaptions [sampleCaption]) :=
  (autoSave_synchronous_write initialCaptionPage [sampleCaption] (by simp)).1

/-- C10: clearTranslation resets the translated text, the detected
gesture list and the current and last gesture to their initial values,
and leaves the translationHistory state unchanged. -/
theorem clearTranslation_resets_keeps_history (st : TranslatorState) :
    (clearTranslation st).translatedText = "" ∧
    (clearTranslation st).detectedGestures = [] ∧
    (clearTranslation st).currentGesture = none ∧
    (clearTranslation st).lastGesture = none ∧
    (clearTranslation st).translationHistory = st.translationHistory :=
  ⟨rfl, rfl, rfl, rfl, rfl⟩
